import Mathlib

/-!
Verification of the pod-error-monitor backend (k-manager repository).

Shallow embedding of `src/pod-error-monitor/backend/main.go` and the
relevant defaulting logic of `src/pod-error-monitor/backend/config/config.go`.

Modelling conventions:
* Go strings are `String`; `v1.PodPhase` is a string type in Go, so `Phase`
  is a `String` and `v1.PodFailed` is the literal `"Failed"`.
* Go `int` / `int32` counters are modelled as `Int`; the counters are
  incremented at most once per list element so 64-bit overflow is
  unreachable for lists that fit in memory, and restart counts appear
  only in sums whose claim-relevant instances are tiny.
* Go `float64` is modelled as `ℚ`; every score appearing in a claim is a
  small decimal that `float64` represents the same way.
* Go's `map[string]*NamespaceStats` is modelled as an association list
  keyed by namespace, in first-insertion order; the value pairs the
  `NamespaceStats` under construction with the `uniquePodsMap` entry
  (the set of pod names, as a duplicate-free list).  Go's map iteration
  order is unspecified, so the final `for ... range statsMap` loop is
  additionally parameterised by an explicit key enumeration
  (`calculateNamespaceStatsOrdered`).
* `sort.Slice` with the comparator `Score >` is unstable in Go; the model
  realises it as an insertion sort that keeps tied elements in slice
  order, which is one admissible outcome (and the exact outcome of Go's
  insertion-sort small-slice path).
-/

/-- `v1.ContainerStateWaiting`: reason and message of a waiting container. -/
structure ContainerStateWaiting where
  Reason : String
  Message : String
deriving DecidableEq, Repr

/-- `v1.ContainerState`, restricted to the `Waiting` field (the only one read). -/
structure ContainerState where
  Waiting : Option ContainerStateWaiting
deriving DecidableEq, Repr

/-- `v1.ContainerStatus`, restricted to the fields read by main.go. -/
structure ContainerStatus where
  Name : String
  State : ContainerState
  RestartCount : Int
deriving DecidableEq, Repr

/-- `v1.PodStatus`, restricted to the fields read by main.go. -/
structure PodStatus where
  Phase : String
  ContainerStatuses : List ContainerStatus
deriving DecidableEq, Repr

/-- One `v1.Pod` from a `v1.PodList`: metadata name/namespace plus status. -/
structure Pod where
  Name : String
  Namespace : String
  Status : PodStatus
deriving DecidableEq, Repr

/-- `PodError` from main.go (JSON struct returned by the per-namespace query). -/
structure PodError where
  Namespace : String
  PodName : String
  ErrorType : String
  ErrorMessage : String
  ContainerName : String
  RestartCount : Int
deriving DecidableEq, Repr

/-- `NamespaceStats` from main.go.  `Score` is Go `float64`, modelled as `ℚ`. -/
structure NamespaceStats where
  Name : String
  TotalErrors : Int
  Score : ℚ
  UniquePods : Int
  CrashLoop : Int
  ImagePull : Int
  HighRestarts : Int
  TotalRestarts : Int
deriving DecidableEq, Repr

/-- `isErrorState` from main.go: membership in the hard-coded reason set. -/
def isErrorState (state : String) : Bool :=
  match state with
  | "ImagePullBackOff" => true
  | "CrashLoopBackOff" => true
  | "ErrImagePull" => true
  | "CreateContainerError" => true
  | "InvalidImageName" => true
  | "ImageInspectError" => true
  | "ErrImageNeverPull" => true
  | _ => false

/-- The `pod.Status.Phase == v1.PodFailed` branch of `getPodErrors`: emits the
`PodFailed` record (container name and restart count are Go zero values). -/
def podFailedErrors (pod : Pod) : List PodError :=
  if pod.Status.Phase = "Failed" then
    [{ Namespace := pod.Namespace
       PodName := pod.Name
       ErrorType := "PodFailed"
       ErrorMessage := "Pod is in Failed phase"
       ContainerName := ""
       RestartCount := 0 }]
  else []

/-- The per-container-status body of `getPodErrors`: the hard-coded
`RestartCount > 5` check, then the waiting-reason check via `isErrorState`. -/
def containerStatusErrors (pod : Pod) (c : ContainerStatus) : List PodError :=
  (if 5 < c.RestartCount then
    [{ Namespace := pod.Namespace
       PodName := pod.Name
       ErrorType := "HighRestartCount"
       ErrorMessage := "Container has restarted multiple times"
       ContainerName := c.Name
       RestartCount := c.RestartCount }]
   else []) ++
  (match c.State.Waiting with
   | some w =>
      if isErrorState w.Reason then
        [{ Namespace := pod.Namespace
           PodName := pod.Name
           ErrorType := w.Reason
           ErrorMessage := w.Message
           ContainerName := c.Name
           RestartCount := c.RestartCount }]
      else []
   | none => [])

/-- `getPodErrors` from main.go: appends, in pod order, the failed-phase
record and then this pod's per-container records. -/
def getPodErrors (pods : List Pod) : List PodError :=
  pods.flatMap fun pod =>
    podFailedErrors pod ++ pod.Status.ContainerStatuses.flatMap (containerStatusErrors pod)

/-- The `HighRestartThreshold` defaulting from config.go `LoadConfig`
(lines 75-77): a zero value is replaced by 5, anything else is kept. -/
def loadHighRestartThreshold (configured : Int) : Int :=
  if configured = 0 then 5 else configured

/-- The pair of values `calculateNamespaceStats` keeps per namespace while
scanning the pod list: the `statsMap` entry and the `uniquePodsMap` entry
(Go keeps them in two maps with the same keys; the model pairs them). -/
structure NsAcc where
  stats : NamespaceStats
  podNames : List String
deriving DecidableEq, Repr

/-- `uniquePodsMap[namespace][pod.Name] = true`: set insertion on the
duplicate-free name list. -/
def insertPodName (name : String) (l : List String) : List String :=
  if name ∈ l then l else l ++ [name]

/-- The fresh `&NamespaceStats{Name: namespace}` plus empty pod-name set
created when a namespace is first seen. -/
def initAcc (ns : String) : NsAcc :=
  { stats := { Name := ns, TotalErrors := 0, Score := 0, UniquePods := 0,
               CrashLoop := 0, ImagePull := 0, HighRestarts := 0, TotalRestarts := 0 }
    podNames := [] }

/-- The `containerStatus.State.Waiting != nil` switch of
`calculateNamespaceStats`: only `CrashLoopBackOff`, `ImagePullBackOff` and
`ErrImagePull` are counted; every other reason falls through. -/
def updateWaiting (pod : Pod) (w : ContainerStateWaiting) (a : NsAcc) : NsAcc :=
  if w.Reason = "CrashLoopBackOff" then
    { stats := { a.stats with CrashLoop := a.stats.CrashLoop + 1,
                              TotalErrors := a.stats.TotalErrors + 1 }
      podNames := insertPodName pod.Name a.podNames }
  else if w.Reason = "ImagePullBackOff" ∨ w.Reason = "ErrImagePull" then
    { stats := { a.stats with ImagePull := a.stats.ImagePull + 1,
                              TotalErrors := a.stats.TotalErrors + 1 }
      podNames := insertPodName pod.Name a.podNames }
  else a

/-- The hard-coded `containerStatus.RestartCount > 5` branch of the
`calculateNamespaceStats` scan. -/
def updateHighRestart (pod : Pod) (c : ContainerStatus) (a : NsAcc) : NsAcc :=
  if 5 < c.RestartCount then
    { stats := { a.stats with TotalErrors := a.stats.TotalErrors + 1,
                              HighRestarts := a.stats.HighRestarts + 1,
                              TotalRestarts := a.stats.TotalRestarts + c.RestartCount }
      podNames := insertPodName pod.Name a.podNames }
  else a

/-- The per-container-status body of the `calculateNamespaceStats` scan:
the restart-count branch, then the waiting switch when `Waiting != nil`. -/
def updateContainer (pod : Pod) (c : ContainerStatus) (a : NsAcc) : NsAcc :=
  match c.State.Waiting with
  | some w => updateWaiting pod w (updateHighRestart pod c a)
  | none => updateHighRestart pod c a

/-- The `pod.Status.Phase == v1.PodFailed` branch of the
`calculateNamespaceStats` scan. -/
def updateFailed (pod : Pod) (a : NsAcc) : NsAcc :=
  if pod.Status.Phase = "Failed" then
    { stats := { a.stats with TotalErrors := a.stats.TotalErrors + 1 }
      podNames := insertPodName pod.Name a.podNames }
  else a

/-- The whole per-pod body of the `calculateNamespaceStats` scan: the
failed-phase branch followed by the container-status loop. -/
def updateAcc (pod : Pod) (a : NsAcc) : NsAcc :=
  pod.Status.ContainerStatuses.foldl (fun a c => updateContainer pod c a)
    (updateFailed pod a)

/-- Association-list lookup, first match wins (keys are kept duplicate-free
by `processPod`). -/
def alookup (m : List (String × NsAcc)) (k : String) : Option NsAcc :=
  match m with
  | [] => none
  | e :: es => if e.1 = k then some e.2 else alookup es k

/-- One pod of the first loop of `calculateNamespaceStats`: insert the
fresh entry if the namespace is unseen, then mutate the entry in place. -/
def processPod (m : List (String × NsAcc)) (pod : Pod) : List (String × NsAcc) :=
  match alookup m pod.Namespace with
  | some _ => m.map fun e => if e.1 = pod.Namespace then (e.1, updateAcc pod e.2) else e
  | none => m ++ [(pod.Namespace, updateAcc pod (initAcc pod.Namespace))]

/-- The first loop of `calculateNamespaceStats` over the whole pod list. -/
def buildStatsMap (pods : List Pod) : List (String × NsAcc) :=
  pods.foldl processPod []

/-- The score expression of `calculateNamespaceStats` (Go `float64`,
modelled as `ℚ`; the literal `0.1` is the real value one tenth). -/
def scoreOf (s : NamespaceStats) : ℚ :=
  ((s.CrashLoop * 3 + s.ImagePull * 2 + s.HighRestarts * 2 +
    (s.TotalErrors - s.CrashLoop - s.ImagePull - s.HighRestarts) : Int) : ℚ) +
  (s.TotalRestarts : ℚ) * (1 / 10)

/-- The body of the second loop of `calculateNamespaceStats`: fill in
`UniquePods` and `Score` of one entry. -/
def finalizeAcc (a : NsAcc) : NamespaceStats :=
  { a.stats with UniquePods := (a.podNames.length : Int), Score := scoreOf a.stats }

/-- The second loop of `calculateNamespaceStats`: finalize each entry in
the given enumeration order and keep those with `TotalErrors > 0`. -/
def finalizeEntries (m : List (String × NsAcc)) : List NamespaceStats :=
  (m.map fun e => finalizeAcc e.2).filter fun s => 0 < s.TotalErrors

/-- One step of the model of `sort.Slice(results, Score >)`: insert an
element into an already-sorted suffix, moving past strictly greater
scores and stopping at the first `≤`, so ties keep their slice order. -/
def insertDesc (x : NamespaceStats) : List NamespaceStats → List NamespaceStats
  | [] => [x]
  | y :: ys => if y.Score ≤ x.Score then x :: y :: ys else y :: insertDesc x ys

/-- The model of `sort.Slice(results, func(i, j) { Score_i > Score_j })`:
a stable insertion sort into descending score order, one admissible
outcome of Go's unstable sort (and the exact outcome of its small-slice
insertion-sort path). -/
def sortByScoreDesc (l : List NamespaceStats) : List NamespaceStats :=
  l.foldr insertDesc []

/-- `calculateNamespaceStats` with the map-iteration order of the second
loop fixed to first-insertion order (one admissible Go map enumeration). -/
def calculateNamespaceStats (pods : List Pod) : List NamespaceStats :=
  sortByScoreDesc (finalizeEntries (buildStatsMap pods))

/-- `calculateNamespaceStats` with the map-iteration order of the second
loop made explicit: `order` enumerates the keys of `statsMap` in the order
Go's randomized map iteration happens to produce. -/
def calculateNamespaceStatsOrdered (order : List String) (pods : List Pod) :
    List NamespaceStats :=
  sortByScoreDesc (finalizeEntries
    (order.filterMap fun ns => (alookup (buildStatsMap pods) ns).map fun a => (ns, a)))

/-- The kubeconfig data `switchContext` reads and writes: the persisted
current-context name and the set of defined context names (`RawConfig`
of client-go; the per-context cluster details are never inspected). -/
structure RawConfig where
  CurrentContext : String
  Contexts : List String
deriving DecidableEq, Repr

/-- The mutable state of `Server` that `switchContext` touches, plus the
durable kubeconfig file: `activeContext` is the context the current
`clientset`/`config` pair is bound to, `persisted` is what
`clientcmd.ModifyConfig` has written to disk. -/
structure ServerState where
  activeContext : String
  persisted : RawConfig
deriving DecidableEq, Repr

/-- The error outcomes of the `switchContext` handler (each is surfaced as
an HTTP error and ends the handler). -/
inductive SwitchError where
  | ContextNotFound
  | PersistFailure
  | ClientConstructionFailure
deriving DecidableEq, Repr

/-- `switchContext` from main.go as a state transition.  The handler reads
`rawConfig` from the persisted kubeconfig, rejects unknown targets, sets
`rawConfig.CurrentContext` and persists it via `ModifyConfig`, then
builds the new client config and clientset, and only then replaces the
in-memory `s.clientset`/`s.config`.  `persistOk` models whether
`ModifyConfig` succeeds; `clientOk` models whether
`ClientConfig()`/`NewForConfig` succeed.  The returned state is the
server + disk state at the point the handler returns. -/
def switchContext (st : ServerState) (newContext : String)
    (persistOk clientOk : Bool) : ServerState × Option SwitchError :=
  let rawConfig := st.persisted
  if newContext ∈ rawConfig.Contexts then
    if persistOk then
      let st1 : ServerState :=
        { st with persisted := { rawConfig with CurrentContext := newContext } }
      if clientOk then
        ({ st1 with activeContext := newContext }, none)
      else
        (st1, some SwitchError.ClientConstructionFailure)
    else
      (st, some SwitchError.PersistFailure)
  else
    (st, some SwitchError.ContextNotFound)

/-- Per-container contribution to `HighRestarts`: 1 when the hard-coded
restart threshold 5 is exceeded. -/
def contHighCount (c : ContainerStatus) : Int :=
  if 5 < c.RestartCount then 1 else 0

/-- Per-container contribution to `TotalRestarts`: the restart count when
the hard-coded threshold 5 is exceeded, else nothing. -/
def contRestartSum (c : ContainerStatus) : Int :=
  if 5 < c.RestartCount then c.RestartCount else 0

/-- Contribution of a waiting reason to `CrashLoop`. -/
def reasonCrashLoopCount (w : ContainerStateWaiting) : Int :=
  if w.Reason = "CrashLoopBackOff" then 1 else 0

/-- Contribution of a waiting reason to `ImagePull`. -/
def reasonImagePullCount (w : ContainerStateWaiting) : Int :=
  if w.Reason = "ImagePullBackOff" ∨ w.Reason = "ErrImagePull" then 1 else 0

/-- Contribution of a waiting reason to `TotalErrors`, shaped like the
switch in the scan: 1 for the three counted reasons, 0 otherwise. -/
def contWaitCount (w : ContainerStateWaiting) : Int :=
  if w.Reason = "CrashLoopBackOff" then 1
  else if w.Reason = "ImagePullBackOff" ∨ w.Reason = "ErrImagePull" then 1
  else 0

/-- Per-container contribution to `CrashLoop`. -/
def contCrashLoopCount (c : ContainerStatus) : Int :=
  match c.State.Waiting with
  | some w => reasonCrashLoopCount w
  | none => 0

/-- Per-container contribution to `ImagePull`. -/
def contImagePullCount (c : ContainerStatus) : Int :=
  match c.State.Waiting with
  | some w => reasonImagePullCount w
  | none => 0

/-- Per-container contribution to `TotalErrors` in the aggregation scan:
the restart branch plus the counted waiting reasons (only
`CrashLoopBackOff`, `ImagePullBackOff`, `ErrImagePull`). -/
def contErrorCount (c : ContainerStatus) : Int :=
  contHighCount c +
  (match c.State.Waiting with
   | some w => contWaitCount w
   | none => 0)

/-- Per-pod contribution to `TotalErrors`: the failed-phase record plus the
per-container contributions. -/
def podErrorCount (p : Pod) : Int :=
  (if p.Status.Phase = "Failed" then 1 else 0) +
  (p.Status.ContainerStatuses.map contErrorCount).sum

/-- The pods of one namespace, in snapshot order. -/
def nsPods (ns : String) (pods : List Pod) : List Pod :=
  pods.filter fun p => decide (p.Namespace = ns)

/-- Recomputed `TotalErrors` of one namespace, straight from the snapshot. -/
def totalErrorsOfNamespace (ns : String) (pods : List Pod) : Int :=
  ((nsPods ns pods).map podErrorCount).sum

/-- Recomputed `TotalRestarts` of one namespace: restart counts are summed
only over containers whose restart count exceeds the hard-coded
threshold 5 (one contribution per such container). -/
def totalRestartsOfNamespace (ns : String) (pods : List Pod) : Int :=
  ((nsPods ns pods).map fun p =>
    (p.Status.ContainerStatuses.map contRestartSum).sum).sum

/-- Recomputed `CrashLoop` of one namespace. -/
def crashLoopOfNamespace (ns : String) (pods : List Pod) : Int :=
  ((nsPods ns pods).map fun p =>
    (p.Status.ContainerStatuses.map contCrashLoopCount).sum).sum

/-- Recomputed `ImagePull` of one namespace. -/
def imagePullOfNamespace (ns : String) (pods : List Pod) : Int :=
  ((nsPods ns pods).map fun p =>
    (p.Status.ContainerStatuses.map contImagePullCount).sum).sum

/-- Recomputed `HighRestarts` of one namespace. -/
def highRestartsOfNamespace (ns : String) (pods : List Pod) : Int :=
  ((nsPods ns pods).map fun p =>
    (p.Status.ContainerStatuses.map contHighCount).sum).sum

/-- The fold of the per-pod update over one namespace's pods, starting from
the fresh entry: by `alookup_buildStatsMap` this is exactly the `statsMap`
entry of that namespace after the first loop. -/
def aggFold (ns : String) (pods : List Pod) : NsAcc :=
  (nsPods ns pods).foldl (fun a p => updateAcc p a) (initAcc ns)

/-- The counted waiting reasons split into the crash-loop part and the
image-pull part: the two reason groups are disjoint string literals. -/
theorem contWaitCount_split (w : ContainerStateWaiting) :
    contWaitCount w = reasonCrashLoopCount w + reasonImagePullCount w := by
  unfold contWaitCount reasonCrashLoopCount reasonImagePullCount
  split_ifs with h1 h2
  · rcases h2 with h | h <;> exact absurd (h1.symm.trans h) (by decide)
  · rfl
  · rfl
  · rfl

/-- The waiting switch adds `contWaitCount` to `TotalErrors`. -/
theorem updateWaiting_TotalErrors (pod : Pod) (w : ContainerStateWaiting) (a : NsAcc) :
    (updateWaiting pod w a).stats.TotalErrors =
      a.stats.TotalErrors + contWaitCount w := by
  unfold updateWaiting contWaitCount
  split_ifs <;> simp

/-- The waiting switch adds `reasonCrashLoopCount` to `CrashLoop`. -/
theorem updateWaiting_CrashLoop (pod : Pod) (w : ContainerStateWaiting) (a : NsAcc) :
    (updateWaiting pod w a).stats.CrashLoop =
      a.stats.CrashLoop + reasonCrashLoopCount w := by
  unfold updateWaiting reasonCrashLoopCount
  split_ifs <;> simp

/-- The waiting switch adds `reasonImagePullCount` to `ImagePull`. -/
theorem updateWaiting_ImagePull (pod : Pod) (w : ContainerStateWaiting) (a : NsAcc) :
    (updateWaiting pod w a).stats.ImagePull =
      a.stats.ImagePull + reasonImagePullCount w := by
  unfold updateWaiting reasonImagePullCount
  split_ifs with h1 h2
  · rcases h2 with h | h <;> exact absurd (h1.symm.trans h) (by decide)
  · simp
  · simp
  · simp

/-- The waiting switch does not touch `HighRestarts`. -/
theorem updateWaiting_HighRestarts (pod : Pod) (w : ContainerStateWaiting) (a : NsAcc) :
    (updateWaiting pod w a).stats.HighRestarts = a.stats.HighRestarts := by
  unfold updateWaiting
  split_ifs <;> simp

/-- The waiting switch does not touch `TotalRestarts`. -/
theorem updateWaiting_TotalRestarts (pod : Pod) (w : ContainerStateWaiting) (a : NsAcc) :
    (updateWaiting pod w a).stats.TotalRestarts = a.stats.TotalRestarts := by
  unfold updateWaiting
  split_ifs <;> simp

/-- The waiting switch keeps the namespace name. -/
theorem updateWaiting_Name (pod : Pod) (w : ContainerStateWaiting) (a : NsAcc) :
    (updateWaiting pod w a).stats.Name = a.stats.Name := by
  unfold updateWaiting
  split_ifs <;> simp

/-- The restart branch adds `contHighCount` to `TotalErrors`. -/
theorem updateHighRestart_TotalErrors (pod : Pod) (c : ContainerStatus) (a : NsAcc) :
    (updateHighRestart pod c a).stats.TotalErrors =
      a.stats.TotalErrors + contHighCount c := by
  unfold updateHighRestart contHighCount
  split_ifs <;> simp

/-- The restart branch does not touch `CrashLoop`. -/
theorem updateHighRestart_CrashLoop (pod : Pod) (c : ContainerStatus) (a : NsAcc) :
    (updateHighRestart pod c a).stats.CrashLoop = a.stats.CrashLoop := by
  unfold updateHighRestart
  split_ifs <;> simp

/-- The restart branch does not touch `ImagePull`. -/
theorem updateHighRestart_ImagePull (pod : Pod) (c : ContainerStatus) (a : NsAcc) :
    (updateHighRestart pod c a).stats.ImagePull = a.stats.ImagePull := by
  unfold updateHighRestart
  split_ifs <;> simp

/-- The restart branch adds `contHighCount` to `HighRestarts`. -/
theorem updateHighRestart_HighRestarts (pod : Pod) (c : ContainerStatus) (a : NsAcc) :
    (updateHighRestart pod c a).stats.HighRestarts =
      a.stats.HighRestarts + contHighCount c := by
  unfold updateHighRestart contHighCount
  split_ifs <;> simp

/-- The restart branch adds `contRestartSum` to `TotalRestarts`. -/
theorem updateHighRestart_TotalRestarts (pod : Pod) (c : ContainerStatus) (a : NsAcc) :
    (updateHighRestart pod c a).stats.TotalRestarts =
      a.stats.TotalRestarts + contRestartSum c := by
  unfold updateHighRestart contRestartSum
  split_ifs <;> simp

/-- The restart branch keeps the namespace name. -/
theorem updateHighRestart_Name (pod : Pod) (c : ContainerStatus) (a : NsAcc) :
    (updateHighRestart pod c a).stats.Name = a.stats.Name := by
  unfold updateHighRestart
  split_ifs <;> simp

/-- One container-status step adds `contErrorCount` to `TotalErrors`. -/
theorem updateContainer_TotalErrors (pod : Pod) (c : ContainerStatus) (a : NsAcc) :
    (updateContainer pod c a).stats.TotalErrors =
      a.stats.TotalErrors + contErrorCount c := by
  unfold updateContainer contErrorCount
  rcases c.State.Waiting with _ | w
  · simp [updateHighRestart_TotalErrors]
  · simp [updateWaiting_TotalErrors, updateHighRestart_TotalErrors]; ring

/-- One container-status step adds `contCrashLoopCount` to `CrashLoop`. -/
theorem updateContainer_CrashLoop (pod : Pod) (c : ContainerStatus) (a : NsAcc) :
    (updateContainer pod c a).stats.CrashLoop =
      a.stats.CrashLoop + contCrashLoopCount c := by
  unfold updateContainer contCrashLoopCount
  rcases c.State.Waiting with _ | w
  · simp [updateHighRestart_CrashLoop]
  · simp [updateWaiting_CrashLoop, updateHighRestart_CrashLoop]

/-- One container-status step adds `contImagePullCount` to `ImagePull`. -/
theorem updateContainer_ImagePull (pod : Pod) (c : ContainerStatus) (a : NsAcc) :
    (updateContainer pod c a).stats.ImagePull =
      a.stats.ImagePull + contImagePullCount c := by
  unfold updateContainer contImagePullCount
  rcases c.State.Waiting with _ | w
  · simp [updateHighRestart_ImagePull]
  · simp [updateWaiting_ImagePull, updateHighRestart_ImagePull]

/-- One container-status step adds `contHighCount` to `HighRestarts`. -/
theorem updateContainer_HighRestarts (pod : Pod) (c : ContainerStatus) (a : NsAcc) :
    (updateContainer pod c a).stats.HighRestarts =
      a.stats.HighRestarts + contHighCount c := by
  unfold updateContainer
  rcases c.State.Waiting with _ | w
  · simp [updateHighRestart_HighRestarts]
  · simp [updateWaiting_HighRestarts, updateHighRestart_HighRestarts]

/-- One container-status step adds `contRestartSum` to `TotalRestarts`. -/
theorem updateContainer_TotalRestarts (pod : Pod) (c : ContainerStatus) (a : NsAcc) :
    (updateContainer pod c a).stats.TotalRestarts =
      a.stats.TotalRestarts + contRestartSum c := by
  unfold updateContainer
  rcases c.State.Waiting with _ | w
  · simp [updateHighRestart_TotalRestarts]
  · simp [updateWaiting_TotalRestarts, updateHighRestart_TotalRestarts]

/-- One container-status step keeps the namespace name. -/
theorem updateContainer_Name (pod : Pod) (c : ContainerStatus) (a : NsAcc) :
    (updateContainer pod c a).stats.Name = a.stats.Name := by
  unfold updateContainer
  rcases c.State.Waiting with _ | w
  · simp [updateHighRestart_Name]
  · simp [updateWaiting_Name, updateHighRestart_Name]

/-- The container-status loop adds the per-container error counts to
`TotalErrors`. -/
theorem contFold_TotalErrors (pod : Pod) (cs : List ContainerStatus) (a : NsAcc) :
    (cs.foldl (fun a c => updateContainer pod c a) a).stats.TotalErrors =
      a.stats.TotalErrors + (cs.map contErrorCount).sum := by
  induction cs generalizing a with
  | nil => simp
  | cons c cs ih => simp [ih, updateContainer_TotalErrors]; ring

/-- The container-status loop adds the per-container crash-loop counts to
`CrashLoop`. -/
theorem contFold_CrashLoop (pod : Pod) (cs : List ContainerStatus) (a : NsAcc) :
    (cs.foldl (fun a c => updateContainer pod c a) a).stats.CrashLoop =
      a.stats.CrashLoop + (cs.map contCrashLoopCount).sum := by
  induction cs generalizing a with
  | nil => simp
  | cons c cs ih => simp [ih, updateContainer_CrashLoop]; ring

/-- The container-status loop adds the per-container image-pull counts to
`ImagePull`. -/
theorem contFold_ImagePull (pod : Pod) (cs : List ContainerStatus) (a : NsAcc) :
    (cs.foldl (fun a c => updateContainer pod c a) a).stats.ImagePull =
      a.stats.ImagePull + (cs.map contImagePullCount).sum := by
  induction cs generalizing a with
  | nil => simp
  | cons c cs ih => simp [ih, updateContainer_ImagePull]; ring

/-- The container-status loop adds the per-container high-restart counts to
`HighRestarts`. -/
theorem contFold_HighRestarts (pod : Pod) (cs : List ContainerStatus) (a : NsAcc) :
    (cs.foldl (fun a c => updateContainer pod c a) a).stats.HighRestarts =
      a.stats.HighRestarts + (cs.map contHighCount).sum := by
  induction cs generalizing a with
  | nil => simp
  | cons c cs ih => simp [ih, updateContainer_HighRestarts]; ring

/-- The container-status loop adds the high-restart restart counts to
`TotalRestarts`. -/
theorem contFold_TotalRestarts (pod : Pod) (cs : List ContainerStatus) (a : NsAcc) :
    (cs.foldl (fun a c => updateContainer pod c a) a).stats.TotalRestarts =
      a.stats.TotalRestarts + (cs.map contRestartSum).sum := by
  induction cs generalizing a with
  | nil => simp
  | cons c cs ih => simp [ih, updateContainer_TotalRestarts]; ring

/-- The container-status loop keeps the namespace name. -/
theorem contFold_Name (pod : Pod) (cs : List ContainerStatus) (a : NsAcc) :
    (cs.foldl (fun a c => updateContainer pod c a) a).stats.Name = a.stats.Name := by
  induction cs generalizing a with
  | nil => simp
  | cons c cs ih => simp [ih, updateContainer_Name]

/-- One whole pod adds `podErrorCount` to `TotalErrors`. -/
theorem updateAcc_TotalErrors (pod : Pod) (a : NsAcc) :
    (updateAcc pod a).stats.TotalErrors = a.stats.TotalErrors + podErrorCount pod := by
  unfold updateAcc updateFailed podErrorCount
  split_ifs with h
  · simp [contFold_TotalErrors]
    ring
  · simp [contFold_TotalErrors]

/-- One whole pod adds its crash-loop container count to `CrashLoop`. -/
theorem updateAcc_CrashLoop (pod : Pod) (a : NsAcc) :
    (updateAcc pod a).stats.CrashLoop =
      a.stats.CrashLoop + (pod.Status.ContainerStatuses.map contCrashLoopCount).sum := by
  unfold updateAcc updateFailed
  split_ifs <;> simp [contFold_CrashLoop]

/-- One whole pod adds its image-pull container count to `ImagePull`. -/
theorem updateAcc_ImagePull (pod : Pod) (a : NsAcc) :
    (updateAcc pod a).stats.ImagePull =
      a.stats.ImagePull + (pod.Status.ContainerStatuses.map contImagePullCount).sum := by
  unfold updateAcc updateFailed
  split_ifs <;> simp [contFold_ImagePull]

/-- One whole pod adds its high-restart container count to `HighRestarts`. -/
theorem updateAcc_HighRestarts (pod : Pod) (a : NsAcc) :
    (updateAcc pod a).stats.HighRestarts =
      a.stats.HighRestarts + (pod.Status.ContainerStatuses.map contHighCount).sum := by
  unfold updateAcc updateFailed
  split_ifs <;> simp [contFold_HighRestarts]

/-- One whole pod adds its high-restart restart counts to `TotalRestarts`. -/
theorem updateAcc_TotalRestarts (pod : Pod) (a : NsAcc) :
    (updateAcc pod a).stats.TotalRestarts =
      a.stats.TotalRestarts + (pod.Status.ContainerStatuses.map contRestartSum).sum := by
  unfold updateAcc updateFailed
  split_ifs <;> simp [contFold_TotalRestarts]

/-- One whole pod keeps the namespace name. -/
theorem updateAcc_Name (pod : Pod) (a : NsAcc) :
    (updateAcc pod a).stats.Name = a.stats.Name := by
  unfold updateAcc updateFailed
  split_ifs <;> simp [contFold_Name]

/-- The pod loop adds the per-pod error counts to `TotalErrors`. -/
theorem podsFold_TotalErrors (l : List Pod) (a : NsAcc) :
    (l.foldl (fun a p => updateAcc p a) a).stats.TotalErrors =
      a.stats.TotalErrors + (l.map podErrorCount).sum := by
  induction l generalizing a with
  | nil => simp
  | cons p l ih => simp [ih, updateAcc_TotalErrors]; ring

/-- The pod loop adds the per-pod crash-loop counts to `CrashLoop`. -/
theorem podsFold_CrashLoop (l : List Pod) (a : NsAcc) :
    (l.foldl (fun a p => updateAcc p a) a).stats.CrashLoop =
      a.stats.CrashLoop +
        (l.map fun p => (p.Status.ContainerStatuses.map contCrashLoopCount).sum).sum := by
  induction l generalizing a with
  | nil => simp
  | cons p l ih => simp [ih, updateAcc_CrashLoop]; ring

/-- The pod loop adds the per-pod image-pull counts to `ImagePull`. -/
theorem podsFold_ImagePull (l : List Pod) (a : NsAcc) :
    (l.foldl (fun a p => updateAcc p a) a).stats.ImagePull =
      a.stats.ImagePull +
        (l.map fun p => (p.Status.ContainerStatuses.map contImagePullCount).sum).sum := by
  induction l generalizing a with
  | nil => simp
  | cons p l ih => simp [ih, updateAcc_ImagePull]; ring

/-- The pod loop adds the per-pod high-restart counts to `HighRestarts`. -/
theorem podsFold_HighRestarts (l : List Pod) (a : NsAcc) :
    (l.foldl (fun a p => updateAcc p a) a).stats.HighRestarts =
      a.stats.HighRestarts +
        (l.map fun p => (p.Status.ContainerStatuses.map contHighCount).sum).sum := by
  induction l generalizing a with
  | nil => simp
  | cons p l ih => simp [ih, updateAcc_HighRestarts]; ring

/-- The pod loop adds the per-pod restart sums to `TotalRestarts`. -/
theorem podsFold_TotalRestarts (l : List Pod) (a : NsAcc) :
    (l.foldl (fun a p => updateAcc p a) a).stats.TotalRestarts =
      a.stats.TotalRestarts +
        (l.map fun p => (p.Status.ContainerStatuses.map contRestartSum).sum).sum := by
  induction l generalizing a with
  | nil => simp
  | cons p l ih => simp [ih, updateAcc_TotalRestarts]; ring

/-- The pod loop keeps the namespace name. -/
theorem podsFold_Name (l : List Pod) (a : NsAcc) :
    (l.foldl (fun a p => updateAcc p a) a).stats.Name = a.stats.Name := by
  induction l generalizing a with
  | nil => simp
  | cons p l ih => simp [ih, updateAcc_Name]

/-- The `statsMap` entry of a namespace carries exactly the recomputed
`TotalErrors` of that namespace. -/
theorem aggFold_TotalErrors (ns : String) (pods : List Pod) :
    (aggFold ns pods).stats.TotalErrors = totalErrorsOfNamespace ns pods := by
  simp [aggFold, totalErrorsOfNamespace, podsFold_TotalErrors, initAcc]

/-- The `statsMap` entry of a namespace carries exactly the recomputed
`CrashLoop` of that namespace. -/
theorem aggFold_CrashLoop (ns : String) (pods : List Pod) :
    (aggFold ns pods).stats.CrashLoop = crashLoopOfNamespace ns pods := by
  simp [aggFold, crashLoopOfNamespace, podsFold_CrashLoop, initAcc]

/-- The `statsMap` entry of a namespace carries exactly the recomputed
`ImagePull` of that namespace. -/
theorem aggFold_ImagePull (ns : String) (pods : List Pod) :
    (aggFold ns pods).stats.ImagePull = imagePullOfNamespace ns pods := by
  simp [aggFold, imagePullOfNamespace, podsFold_ImagePull, initAcc]

/-- The `statsMap` entry of a namespace carries exactly the recomputed
`HighRestarts` of that namespace. -/
theorem aggFold_HighRestarts (ns : String) (pods : List Pod) :
    (aggFold ns pods).stats.HighRestarts = highRestartsOfNamespace ns pods := by
  simp [aggFold, highRestartsOfNamespace, podsFold_HighRestarts, initAcc]

/-- The `statsMap` entry of a namespace carries exactly the recomputed
`TotalRestarts` of that namespace. -/
theorem aggFold_TotalRestarts (ns : String) (pods : List Pod) :
    (aggFold ns pods).stats.TotalRestarts = totalRestartsOfNamespace ns pods := by
  simp [aggFold, totalRestartsOfNamespace, podsFold_TotalRestarts, initAcc]

/-- The `statsMap` entry of a namespace carries that namespace's name. -/
theorem aggFold_Name (ns : String) (pods : List Pod) :
    (aggFold ns pods).stats.Name = ns := by
  simp [aggFold, podsFold_Name, initAcc]

/-- Set insertion never produces the empty name set. -/
theorem insertPodName_ne_nil (n : String) (l : List String) :
    insertPodName n l ≠ [] := by
  unfold insertPodName
  split_ifs with h
  · exact List.ne_nil_of_mem h
  · simp

/-- An accumulator whose error total is positive has recorded a pod name:
the invariant linking `TotalErrors` to `uniquePodsMap`. -/
def podSeen (a : NsAcc) : Prop :=
  0 < a.stats.TotalErrors → a.podNames ≠ []

/-- `podSeen` survives the restart branch. -/
theorem podSeen_updateHighRestart (pod : Pod) (c : ContainerStatus) (a : NsAcc)
    (h : podSeen a) : podSeen (updateHighRestart pod c a) := by
  unfold updateHighRestart
  split_ifs
  · intro _
    exact insertPodName_ne_nil _ _
  · exact h

/-- `podSeen` survives the waiting switch. -/
theorem podSeen_updateWaiting (pod : Pod) (w : ContainerStateWaiting) (a : NsAcc)
    (h : podSeen a) : podSeen (updateWaiting pod w a) := by
  unfold updateWaiting
  split_ifs
  · intro _
    exact insertPodName_ne_nil _ _
  · intro _
    exact insertPodName_ne_nil _ _
  · exact h

/-- `podSeen` survives one container-status step. -/
theorem podSeen_updateContainer (pod : Pod) (c : ContainerStatus) (a : NsAcc)
    (h : podSeen a) : podSeen (updateContainer pod c a) := by
  unfold updateContainer
  rcases c.State.Waiting with _ | w
  · exact podSeen_updateHighRestart pod c a h
  · exact podSeen_updateWaiting pod w _ (podSeen_updateHighRestart pod c a h)

/-- `podSeen` survives the failed-phase branch. -/
theorem podSeen_updateFailed (pod : Pod) (a : NsAcc)
    (h : podSeen a) : podSeen (updateFailed pod a) := by
  unfold updateFailed
  split_ifs
  · intro _
    exact insertPodName_ne_nil _ _
  · exact h

/-- `podSeen` survives one whole pod. -/
theorem podSeen_updateAcc (pod : Pod) (a : NsAcc)
    (h : podSeen a) : podSeen (updateAcc pod a) := by
  unfold updateAcc
  have h1 := podSeen_updateFailed pod a h
  generalize updateFailed pod a = a1 at h1
  induction pod.Status.ContainerStatuses generalizing a1 with
  | nil => exact h1
  | cons c cs ih => exact ih _ (podSeen_updateContainer pod c a1 h1)

/-- Every `statsMap` entry satisfies `podSeen`: a positive error total
means at least one pod name was recorded. -/
theorem podSeen_aggFold (ns : String) (pods : List Pod) :
    podSeen (aggFold ns pods) := by
  unfold aggFold
  have h0 : podSeen (initAcc ns) := by
    intro h
    simp [initAcc] at h
  generalize initAcc ns = a at h0
  induction nsPods ns pods generalizing a with
  | nil => exact h0
  | cons p l ih => exact ih _ (podSeen_updateAcc p a h0)

/-- Lookup across an append: the left list wins when it has the key. -/
theorem alookup_append (m m' : List (String × NsAcc)) (k : String) :
    alookup (m ++ m') k =
      match alookup m k with
      | some v => some v
      | none => alookup m' k := by
  induction m with
  | nil => simp [alookup]
  | cons e es ih =>
      by_cases h : e.1 = k
      · simp [alookup, h]
      · simp [alookup, h, ih]

/-- Lookup after the in-place update of the entry at `pod.Namespace`. -/
theorem alookup_update (m : List (String × NsAcc)) (pod : Pod) (k : String) :
    alookup (m.map fun e => if e.1 = pod.Namespace then (e.1, updateAcc pod e.2) else e) k =
      (alookup m k).map fun v => if k = pod.Namespace then updateAcc pod v else v := by
  induction m with
  | nil => simp [alookup]
  | cons e es ih =>
      by_cases h : e.1 = k
      · by_cases h2 : e.1 = pod.Namespace
        · simp [alookup, h, h2, h ▸ h2]
        · have : ¬ k = pod.Namespace := fun hk => h2 (h.symm ▸ hk)
          simp [alookup, h, h2, this]
      · by_cases h2 : e.1 = pod.Namespace
        · have h3 : ¬ pod.Namespace = k := fun hc => h (h2.trans hc)
          simp [alookup, h, h2, h3, ih]
        · simp [alookup, h, h2, ih]

/-- Splitting one namespace's pods across an appended snapshot. -/
theorem nsPods_append (ns : String) (l : List Pod) (p : Pod) :
    nsPods ns (l ++ [p]) =
      nsPods ns l ++ (if p.Namespace = ns then [p] else []) := by
  simp only [nsPods, List.filter_append, List.filter_cons, List.filter_nil]
  split_ifs with h h2 h3
  · rfl
  · exact absurd (of_decide_eq_true h) h2
  · exact absurd (decide_eq_true h3) h
  · rfl

/-- Lookup after processing one pod: the entry at the pod's namespace is
updated (starting from the fresh entry when absent), all others are kept. -/
theorem alookup_processPod (m : List (String × NsAcc)) (pod : Pod) (k : String) :
    alookup (processPod m pod) k =
      if k = pod.Namespace then
        some (updateAcc pod ((alookup m k).getD (initAcc k)))
      else alookup m k := by
  unfold processPod
  cases h : alookup m pod.Namespace with
  | some v =>
      rw [alookup_update]
      by_cases hk : k = pod.Namespace
      · subst hk
        simp [h]
      · simp [hk]
  | none =>
      rw [alookup_append]
      by_cases hk : k = pod.Namespace
      · subst hk
        simp [h, alookup]
      · cases hm : alookup m k with
        | some v => simp [hm, hk]
        | none =>
            have hk2 : ¬ pod.Namespace = k := fun hc => hk hc.symm
            simp [hm, hk, hk2, alookup]

/-- The first loop of `calculateNamespaceStats`, characterised: the
`statsMap` entry of a namespace is exactly the fold of the per-pod update
over that namespace's pods, and namespaces without pods have no entry. -/
theorem alookup_buildStatsMap (pods : List Pod) (k : String) :
    alookup (buildStatsMap pods) k =
      if nsPods k pods = [] then none else some (aggFold k pods) := by
  induction pods using List.reverseRecOn with
  | nil => simp [buildStatsMap, alookup, nsPods]
  | append_singleton l p ih =>
      have hb : buildStatsMap (l ++ [p]) = processPod (buildStatsMap l) p := by
        simp [buildStatsMap, List.foldl_append]
      rw [hb, alookup_processPod]
      by_cases hk : k = p.Namespace
      · subst hk
        rw [if_pos rfl, ih]
        have h1 : nsPods p.Namespace (l ++ [p]) = nsPods p.Namespace l ++ [p] := by
          rw [nsPods_append, if_pos rfl]
        have h2 : aggFold p.Namespace (l ++ [p]) = updateAcc p (aggFold p.Namespace l) := by
          unfold aggFold
          rw [h1, List.foldl_append]
          simp
        by_cases hl : nsPods p.Namespace l = []
        · have h3 : aggFold p.Namespace l = initAcc p.Namespace := by
            unfold aggFold
            rw [hl]
            simp
          rw [if_pos hl, if_neg (by rw [h1]; simp), h2, h3]
          simp
        · rw [if_neg hl, if_neg (by rw [h1]; simp), h2]
          simp
      · have hns : ¬ p.Namespace = k := fun hc => hk hc.symm
        have h1 : nsPods k (l ++ [p]) = nsPods k l := by
          rw [nsPods_append, if_neg hns, List.append_nil]
        have h2 : aggFold k (l ++ [p]) = aggFold k l := by
          unfold aggFold
          rw [h1]
        rw [if_neg hk, ih, h1, h2]

/-- A key is absent from the association list exactly when lookup fails. -/
theorem alookup_eq_none_iff (m : List (String × NsAcc)) (k : String) :
    alookup m k = none ↔ k ∉ m.map Prod.fst := by
  induction m with
  | nil => simp [alookup]
  | cons e es ih =>
      by_cases h : e.1 = k
      · simp [alookup, h]
      · have h2 : ¬ k = e.1 := fun hc => h hc.symm
        simp [alookup, h, ih, h2]

/-- The keys of `statsMap` are duplicate-free: a namespace is inserted only
when it is not present yet. -/
theorem keys_nodup_buildStatsMap (pods : List Pod) :
    ((buildStatsMap pods).map Prod.fst).Nodup := by
  induction pods using List.reverseRecOn with
  | nil => simp [buildStatsMap]
  | append_singleton l p ih =>
      have hb : buildStatsMap (l ++ [p]) = processPod (buildStatsMap l) p := by
        simp [buildStatsMap, List.foldl_append]
      rw [hb]
      unfold processPod
      cases h : alookup (buildStatsMap l) p.Namespace with
      | some v =>
          have hkeys : ((buildStatsMap l).map fun e =>
                if e.1 = p.Namespace then (e.1, updateAcc p e.2) else e).map Prod.fst
              = (buildStatsMap l).map Prod.fst := by
            rw [List.map_map]
            refine List.map_congr_left ?_
            intro e _
            by_cases he : e.1 = p.Namespace <;> simp [he]
          rw [hkeys]
          exact ih
      | none =>
          have habs : p.Namespace ∉ (buildStatsMap l).map Prod.fst :=
            (alookup_eq_none_iff _ _).mp h
          simp [List.nodup_append, ih, habs]

/-- With duplicate-free keys, membership determines lookup. -/
theorem alookup_of_mem (m : List (String × NsAcc))
    (hnd : (m.map Prod.fst).Nodup) (e : String × NsAcc) (he : e ∈ m) :
    alookup m e.1 = some e.2 := by
  induction m with
  | nil => cases he
  | cons hd tl ih =>
      rcases List.mem_cons.mp he with he | he
      · subst he
        simp [alookup]
      · have hnd2 : hd.1 ∉ tl.map Prod.fst ∧ (tl.map Prod.fst).Nodup := by
          rw [List.map_cons, List.nodup_cons] at hnd
          exact hnd
        have hne : ¬ hd.1 = e.1 := by
          intro hc
          exact hnd2.1 (hc ▸ List.mem_map_of_mem Prod.fst he)
        rw [alookup, if_neg hne]
        exact ih hnd2.2 he

/-- Membership in the insertion step of the sort. -/
theorem mem_insertDesc (x y : NamespaceStats) (l : List NamespaceStats) :
    y ∈ insertDesc x l ↔ y = x ∨ y ∈ l := by
  induction l with
  | nil => simp [insertDesc]
  | cons z zs ih =>
      unfold insertDesc
      split_ifs
      · simp
      · simp [ih]
        tauto

/-- The sort neither adds nor removes entries. -/
theorem mem_sortByScoreDesc (y : NamespaceStats) (l : List NamespaceStats) :
    y ∈ sortByScoreDesc l ↔ y ∈ l := by
  induction l with
  | nil => simp [sortByScoreDesc]
  | cons x xs ih =>
      have h : sortByScoreDesc (x :: xs) = insertDesc x (sortByScoreDesc xs) := rfl
      rw [h, mem_insertDesc, ih]
      simp

/-- The ordering the sort establishes: scores never increase from one
entry to a later one. -/
def ScoreDesc (a b : NamespaceStats) : Prop :=
  b.Score ≤ a.Score

/-- Inserting into a score-descending list keeps it score-descending. -/
theorem pairwise_insertDesc (x : NamespaceStats) (l : List NamespaceStats)
    (h : l.Pairwise ScoreDesc) : (insertDesc x l).Pairwise ScoreDesc := by
  induction l with
  | nil => simp [insertDesc, List.pairwise_cons]
  | cons y ys ih =>
      have h1 : ∀ z ∈ ys, ScoreDesc y z := (List.pairwise_cons.mp h).1
      have h2 : ys.Pairwise ScoreDesc := (List.pairwise_cons.mp h).2
      unfold insertDesc
      split_ifs with hs
      · refine List.pairwise_cons.mpr ⟨?_, h⟩
        intro z hz
        rcases List.mem_cons.mp hz with hz | hz
        · subst hz
          exact hs
        · exact le_trans (h1 z hz) hs
      · refine List.pairwise_cons.mpr ⟨?_, ih h2⟩
        intro z hz
        rcases (mem_insertDesc x z ys).mp hz with hz | hz
        · subst hz
          exact le_of_lt (lt_of_not_le hs)
        · exact h1 z hz

/-- The sort's output is score-descending. -/
theorem sortByScoreDesc_pairwise (l : List NamespaceStats) :
    (sortByScoreDesc l).Pairwise ScoreDesc := by
  induction l with
  | nil => simp [sortByScoreDesc]
  | cons x xs ih => exact pairwise_insertDesc x (sortByScoreDesc xs) ih

/-- Anything in the final ranked list came from a `statsMap` entry with a
positive error total, and that entry is the namespace's aggregation fold. -/
theorem mem_calculateNamespaceStats (pods : List Pod) (s : NamespaceStats)
    (hs : s ∈ calculateNamespaceStats pods) :
    ∃ ns, nsPods ns pods ≠ [] ∧ s = finalizeAcc (aggFold ns pods) ∧
      0 < s.TotalErrors := by
  rw [calculateNamespaceStats, mem_sortByScoreDesc, finalizeEntries] at hs
  rcases List.mem_filter.mp hs with ⟨hmem, hpos⟩
  rcases List.mem_map.mp hmem with ⟨e, he, hfe⟩
  have hl : alookup (buildStatsMap pods) e.1 = some e.2 :=
    alookup_of_mem _ (keys_nodup_buildStatsMap pods) e he
  rw [alookup_buildStatsMap] at hl
  by_cases hns : nsPods e.1 pods = []
  · rw [if_pos hns] at hl
    cases hl
  · rw [if_neg hns] at hl
    refine ⟨e.1, hns, ?_, of_decide_eq_true hpos⟩
    rw [← hfe, Option.some_inj.mp hl]

/-- Entries of the ranked list always pass the `TotalErrors > 0` filter,
whatever the map-iteration order produced the pre-sort list. -/
theorem mem_finalize_pos (m : List (String × NsAcc)) (s : NamespaceStats)
    (hs : s ∈ sortByScoreDesc (finalizeEntries m)) : 0 < s.TotalErrors := by
  rw [mem_sortByScoreDesc, finalizeEntries] at hs
  exact of_decide_eq_true (List.mem_filter.mp hs).2

/-- Summing a pointwise sum of two counts splits into two sums. -/
theorem sum_map_add {α : Type} (l : List α) (f g : α → Int) :
    (l.map fun x => f x + g x).sum = (l.map f).sum + (l.map g).sum := by
  induction l with
  | nil => simp
  | cons x xs ih => simp [ih]; ring

/-- Per container, the error count is the high-restart count plus the
crash-loop count plus the image-pull count. -/
theorem contErrorCount_split (c : ContainerStatus) :
    contErrorCount c =
      contHighCount c + contCrashLoopCount c + contImagePullCount c := by
  unfold contErrorCount contCrashLoopCount contImagePullCount
  rcases c.State.Waiting with _ | w
  · simp
  · simp [contWaitCount_split]
    ring

/-- Per pod, the error count is the failed-phase indicator plus the three
per-container counts. -/
theorem podErrorCount_split (p : Pod) :
    podErrorCount p =
      (if p.Status.Phase = "Failed" then 1 else 0) +
      (p.Status.ContainerStatuses.map contHighCount).sum +
      (p.Status.ContainerStatuses.map contCrashLoopCount).sum +
      (p.Status.ContainerStatuses.map contImagePullCount).sum := by
  unfold podErrorCount
  have h : (p.Status.ContainerStatuses.map contErrorCount).sum =
      (p.Status.ContainerStatuses.map contHighCount).sum +
      (p.Status.ContainerStatuses.map contCrashLoopCount).sum +
      (p.Status.ContainerStatuses.map contImagePullCount).sum := by
    have h2 : p.Status.ContainerStatuses.map contErrorCount =
        p.Status.ContainerStatuses.map fun c =>
          contHighCount c + contCrashLoopCount c + contImagePullCount c :=
      List.map_congr_left fun c _ => contErrorCount_split c
    rw [h2]
    have h3 : (p.Status.ContainerStatuses.map fun c =>
        contHighCount c + contCrashLoopCount c + contImagePullCount c) =
        p.Status.ContainerStatuses.map fun c =>
          (fun x => contHighCount x + contCrashLoopCount x) c + contImagePullCount c :=
      rfl
    rw [h3, sum_map_add, sum_map_add]
  rw [h]
  ring

/-- Per namespace, the breakdown counts never exceed the error total: the
difference is the number of failed-phase pods, which is nonnegative. -/
theorem counts_le_totalErrors (ns : String) (pods : List Pod) :
    crashLoopOfNamespace ns pods + imagePullOfNamespace ns pods +
      highRestartsOfNamespace ns pods ≤ totalErrorsOfNamespace ns pods := by
  unfold totalErrorsOfNamespace crashLoopOfNamespace imagePullOfNamespace
    highRestartsOfNamespace
  have h : (nsPods ns pods).map podErrorCount =
      (nsPods ns pods).map fun p =>
        ((if p.Status.Phase = "Failed" then 1 else 0) +
          (p.Status.ContainerStatuses.map contHighCount).sum +
          (p.Status.ContainerStatuses.map contCrashLoopCount).sum) +
        (p.Status.ContainerStatuses.map contImagePullCount).sum := by
    refine List.map_congr_left fun p _ => ?_
    rw [podErrorCount_split]
  rw [h, sum_map_add]
  have h2 : ((nsPods ns pods).map fun p =>
      (if p.Status.Phase = "Failed" then 1 else 0) +
        (p.Status.ContainerStatuses.map contHighCount).sum +
        (p.Status.ContainerStatuses.map contCrashLoopCount).sum) =
      (nsPods ns pods).map fun p =>
        ((fun q => (if q.Status.Phase = "Failed" then 1 else 0) +
          (q.Status.ContainerStatuses.map contHighCount).sum) p) +
        (p.Status.ContainerStatuses.map contCrashLoopCount).sum :=
    rfl
  rw [h2, sum_map_add, sum_map_add]
  have h3 : (0 : Int) ≤
      ((nsPods ns pods).map fun p =>
        if p.Status.Phase = "Failed" then (1 : Int) else 0).sum := by
    refine List.sum_nonneg ?_
    intro x hx
    rcases List.mem_map.mp hx with ⟨p, _, hp⟩
    rw [← hp]
    split_ifs <;> simp
  linarith

/-- C8's scenario pod: instance `p2` in namespace `b`, one container `c1`
with restart count 10, waiting with reason `CrashLoopBackOff`. -/
def pod2 : Pod :=
  { Name := "p2"
    Namespace := "b"
    Status :=
      { Phase := "Running"
        ContainerStatuses :=
          [{ Name := "c1"
             State := { Waiting := some { Reason := "CrashLoopBackOff", Message := "m" } }
             RestartCount := 10 }] } }

/-- The stats entry `calculateNamespaceStats [pod2]` produces for `b`. -/
def statB8 : NamespaceStats :=
  { Name := "b", TotalErrors := 2, Score := 6, UniquePods := 1,
    CrashLoop := 1, ImagePull := 0, HighRestarts := 1, TotalRestarts := 10 }

/-- A crash-looping pod in namespace `a` (no restarts). -/
def podCrashLoopA : Pod :=
  { Name := "pa"
    Namespace := "a"
    Status :=
      { Phase := "Running"
        ContainerStatuses :=
          [{ Name := "c"
             State := { Waiting := some { Reason := "CrashLoopBackOff", Message := "" } }
             RestartCount := 0 }] } }

/-- A crash-looping pod in namespace `b`, identical stats to `podCrashLoopA`. -/
def podCrashLoopB : Pod :=
  { Name := "pb"
    Namespace := "b"
    Status :=
      { Phase := "Running"
        ContainerStatuses :=
          [{ Name := "c"
             State := { Waiting := some { Reason := "CrashLoopBackOff", Message := "" } }
             RestartCount := 0 }] } }

/-- A crash-looping pod in namespace `c` whose container has 3 restarts:
below the hard-coded threshold, so its restart count is never summed. -/
def podLowCrash : Pod :=
  { Name := "pc"
    Namespace := "c"
    Status :=
      { Phase := "Running"
        ContainerStatuses :=
          [{ Name := "cc"
             State := { Waiting := some { Reason := "CrashLoopBackOff", Message := "" } }
             RestartCount := 3 }] } }

/-- The waiting state of `podCreateErr`'s container. -/
def waitCreateErr : ContainerStateWaiting :=
  { Reason := "CreateContainerError", Message := "boom" }

/-- The container of `podCreateErr`. -/
def contCreateErr : ContainerStatus :=
  { Name := "cd", State := { Waiting := some waitCreateErr }, RestartCount := 0 }

/-- A pod in namespace `d` whose only anomaly is a `CreateContainerError`
waiting reason. -/
def podCreateErr : Pod :=
  { Name := "pd"
    Namespace := "d"
    Status := { Phase := "Running", ContainerStatuses := [contCreateErr] } }

/-- A pod in namespace `e` whose container restarted 3 times with no
waiting state: above the shipped configured threshold 1, below the
hard-coded 5. -/
def podRC3 : Pod :=
  { Name := "pe"
    Namespace := "e"
    Status :=
      { Phase := "Running"
        ContainerStatuses :=
          [{ Name := "ce", State := { Waiting := none }, RestartCount := 3 }] } }

/-- A server bound to context `a`, with contexts `a` and `b` on disk. -/
def st0 : ServerState :=
  { activeContext := "a"
    persisted := { CurrentContext := "a", Contexts := ["a", "b"] } }

/-- The stats entry produced for `podCrashLoopA`'s namespace. -/
def statCrashLoopA : NamespaceStats :=
  { Name := "a", TotalErrors := 1, Score := 3, UniquePods := 1,
    CrashLoop := 1, ImagePull := 0, HighRestarts := 0, TotalRestarts := 0 }

/-- The stats entry produced for `podCrashLoopB`'s namespace. -/
def statCrashLoopB : NamespaceStats :=
  { Name := "b", TotalErrors := 1, Score := 3, UniquePods := 1,
    CrashLoop := 1, ImagePull := 0, HighRestarts := 0, TotalRestarts := 0 }

/-- The stats entry produced for `podLowCrash`'s namespace. -/
def statLowCrash : NamespaceStats :=
  { Name := "c", TotalErrors := 1, Score := 3, UniquePods := 1,
    CrashLoop := 1, ImagePull := 0, HighRestarts := 0, TotalRestarts := 0 }

/-- Evaluation: the ranked stats of the C8 snapshot. -/
theorem eval_stats_pod2 : calculateNamespaceStats [pod2] = [statB8] := by
  norm_num [calculateNamespaceStats, buildStatsMap, processPod, alookup, updateAcc,
    updateFailed, updateContainer, updateWaiting, updateHighRestart, insertPodName,
    initAcc, finalizeEntries, finalizeAcc, scoreOf, sortByScoreDesc, insertDesc,
    pod2, statB8,
    (by decide : ("Running" : String) ≠ "Failed"),
    (by decide : ("CrashLoopBackOff" : String) ≠ "ImagePullBackOff"),
    (by decide : ("CrashLoopBackOff" : String) ≠ "ErrImagePull")]

/-- Evaluation: the ranked stats of the single low-restart crash-loop pod. -/
theorem eval_stats_podLowCrash :
    calculateNamespaceStats [podLowCrash] = [statLowCrash] := by
  norm_num [calculateNamespaceStats, buildStatsMap, processPod, alookup, updateAcc,
    updateFailed, updateContainer, updateWaiting, updateHighRestart, insertPodName,
    initAcc, finalizeEntries, finalizeAcc, scoreOf, sortByScoreDesc, insertDesc,
    podLowCrash, statLowCrash,
    (by decide : ("Running" : String) ≠ "Failed"),
    (by decide : ("CrashLoopBackOff" : String) ≠ "ImagePullBackOff"),
    (by decide : ("CrashLoopBackOff" : String) ≠ "ErrImagePull")]

/-- Evaluation: the create-container-error pod yields no stats entry. -/
theorem eval_stats_podCreateErr :
    calculateNamespaceStats [podCreateErr] = [] := by
  norm_num [calculateNamespaceStats, buildStatsMap, processPod, alookup, updateAcc,
    updateFailed, updateContainer, updateWaiting, updateHighRestart, insertPodName,
    initAcc, finalizeEntries, finalizeAcc, scoreOf, sortByScoreDesc, insertDesc,
    podCreateErr, contCreateErr, waitCreateErr,
    (by decide : ("Running" : String) ≠ "Failed"),
    (by decide : ("CreateContainerError" : String) ≠ "CrashLoopBackOff"),
    (by decide : ("CreateContainerError" : String) ≠ "ImagePullBackOff"),
    (by decide : ("CreateContainerError" : String) ≠ "ErrImagePull")]

/-- Evaluation: the 3-restart pod yields no stats entry. -/
theorem eval_stats_podRC3 : calculateNamespaceStats [podRC3] = [] := by
  norm_num [calculateNamespaceStats, buildStatsMap, processPod, alookup, updateAcc,
    updateFailed, updateContainer, updateWaiting, updateHighRestart, insertPodName,
    initAcc, finalizeEntries, finalizeAcc, scoreOf, sortByScoreDesc, insertDesc,
    podRC3, (by decide : ("Running" : String) ≠ "Failed")]

/-- Evaluation: enumerating the tied namespaces `b` first. -/
theorem eval_ordered_ba :
    calculateNamespaceStatsOrdered ["b", "a"] [podCrashLoopB, podCrashLoopA] =
      [statCrashLoopB, statCrashLoopA] := by
  norm_num [calculateNamespaceStatsOrdered, buildStatsMap, processPod, alookup,
    updateAcc, updateFailed, updateContainer, updateWaiting, updateHighRestart,
    insertPodName, initAcc, finalizeEntries, finalizeAcc, scoreOf, sortByScoreDesc,
    insertDesc, podCrashLoopA, podCrashLoopB, statCrashLoopA, statCrashLoopB,
    List.filterMap_cons, List.filterMap_nil,
    (by decide : ("Running" : String) ≠ "Failed"),
    (by decide : ("CrashLoopBackOff" : String) ≠ "ImagePullBackOff"),
    (by decide : ("CrashLoopBackOff" : String) ≠ "ErrImagePull"),
    (by decide : ("b" : String) ≠ "a"),
    (by decide : ("a" : String) ≠ "b")]

/-- Evaluation: enumerating the tied namespaces `a` first. -/
theorem eval_ordered_ab :
    calculateNamespaceStatsOrdered ["a", "b"] [podCrashLoopB, podCrashLoopA] =
      [statCrashLoopA, statCrashLoopB] := by
  norm_num [calculateNamespaceStatsOrdered, buildStatsMap, processPod, alookup,
    updateAcc, updateFailed, updateContainer, updateWaiting, updateHighRestart,
    insertPodName, initAcc, finalizeEntries, finalizeAcc, scoreOf, sortByScoreDesc,
    insertDesc, podCrashLoopA, podCrashLoopB, statCrashLoopA, statCrashLoopB,
    List.filterMap_cons, List.filterMap_nil,
    (by decide : ("Running" : String) ≠ "Failed"),
    (by decide : ("CrashLoopBackOff" : String) ≠ "ImagePullBackOff"),
    (by decide : ("CrashLoopBackOff" : String) ≠ "ErrImagePull"),
    (by decide : ("b" : String) ≠ "a"),
    (by decide : ("a" : String) ≠ "b")]

/-- C1: the ranking comparator looks only at the score, so two namespaces
with identical scores come out in map-iteration order, not in ascending
name order: iterating `b` before `a` (both admissible for a Go map whose
keys are exactly `b` and `a`) yields the sequence `[b, a]`, while
iterating `a` first yields `[a, b]` — the tie is not broken by name and
re-running the computation on the identical snapshot can change the
output sequence. -/
theorem C1_counterexample :
    ((buildStatsMap [podCrashLoopB, podCrashLoopA]).map Prod.fst = ["b", "a"]) ∧
    ((calculateNamespaceStatsOrdered ["b", "a"] [podCrashLoopB, podCrashLoopA]).map
        NamespaceStats.Score =
      (calculateNamespaceStatsOrdered ["a", "b"] [podCrashLoopB, podCrashLoopA]).map
        NamespaceStats.Score) ∧
    ((calculateNamespaceStatsOrdered ["b", "a"] [podCrashLoopB, podCrashLoopA]).map
        NamespaceStats.Name = ["b", "a"]) ∧
    ((calculateNamespaceStatsOrdered ["a", "b"] [podCrashLoopB, podCrashLoopA]).map
        NamespaceStats.Name = ["a", "b"]) ∧
    calculateNamespaceStatsOrdered ["b", "a"] [podCrashLoopB, podCrashLoopA] ≠
      calculateNamespaceStatsOrdered ["a", "b"] [podCrashLoopB, podCrashLoopA] :=
  ⟨by decide,
   by rw [eval_ordered_ba, eval_ordered_ab]; simp [statCrashLoopA, statCrashLoopB],
   by rw [eval_ordered_ba]; simp [statCrashLoopA, statCrashLoopB],
   by rw [eval_ordered_ab]; simp [statCrashLoopA, statCrashLoopB],
   by
    rw [eval_ordered_ba, eval_ordered_ab]
    simp [statCrashLoopA, statCrashLoopB, (by decide : ("b" : String) ≠ "a")]⟩

/-- C1 (amended): the sequence returned by `calculateNamespaceStats` is
sorted by score descending, for every snapshot and every map-iteration
order; nothing orders tied entries by name. -/
theorem C1_sorted_score_descending (pods : List Pod) (order : List String) :
    (calculateNamespaceStats pods).Pairwise ScoreDesc ∧
    (calculateNamespaceStatsOrdered order pods).Pairwise ScoreDesc :=
  ⟨sortByScoreDesc_pairwise _, sortByScoreDesc_pairwise _⟩

/-- C2: a CrashLoop record on a container with 3 restarts carries restart
count 3, yet the namespace's `TotalRestarts` is 0 — the aggregation does
not sum restart counts across all records of the group. -/
theorem C2_counterexample :
    ((getPodErrors [podLowCrash]).map PodError.RestartCount).sum = 3 ∧
    ((calculateNamespaceStats [podLowCrash]).map NamespaceStats.TotalRestarts
      = [0]) :=
  ⟨by decide, by rw [eval_stats_podLowCrash]; simp [statLowCrash]⟩

/-- C2 (amended): `TotalRestarts` of every ranked entry is the sum of the
restart counts of exactly those containers whose restart count exceeds
the hard-coded threshold 5 (the containers yielding HighRestartCount
records), one contribution per container; waiting-state records on
containers at or below the threshold contribute nothing. -/
theorem C2_totalRestarts_only_high (pods : List Pod) (s : NamespaceStats)
    (hs : s ∈ calculateNamespaceStats pods) :
    s.TotalRestarts = totalRestartsOfNamespace s.Name pods := by
  rcases mem_calculateNamespaceStats pods s hs with ⟨ns, _, heq, _⟩
  subst heq
  simp [finalizeAcc, aggFold_TotalRestarts, aggFold_Name]

/-- C2 witness: the amended statement evaluated on `podLowCrash`. -/
theorem C2_totalRestarts_only_high_witness :
    statLowCrash ∈ calculateNamespaceStats [podLowCrash] ∧
    statLowCrash.TotalRestarts = totalRestartsOfNamespace "c" [podLowCrash] :=
  ⟨by rw [eval_stats_podLowCrash]; exact List.mem_singleton.mpr rfl,
   C2_totalRestarts_only_high [podLowCrash] statLowCrash
     (by rw [eval_stats_podLowCrash]; exact List.mem_singleton.mpr rfl)⟩

/-- C3: a `CreateContainerError` container yields a classifier record, but
the aggregation ignores it entirely: the namespace does not even appear
in the stats (so the record is not counted in any `totalErrors`). -/
theorem C3_counterexample :
    ((getPodErrors [podCreateErr]).map PodError.ErrorType
      = ["CreateContainerError"]) ∧
    calculateNamespaceStats [podCreateErr] = [] :=
  ⟨by decide, eval_stats_podCreateErr⟩

/-- C3 (amended): each of the four other-error waiting reasons yields a
`getPodErrors` record (with the reason as its error type), but
`calculateNamespaceStats` does not count such records: every ranked
entry's `TotalErrors` equals the recomputed count that includes only
failed-phase pods, high-restart containers, and the three reasons
`CrashLoopBackOff`, `ImagePullBackOff`, `ErrImagePull`. -/
theorem C3_other_reasons_uncounted (pods : List Pod) :
    (∀ p ∈ pods, ∀ c ∈ p.Status.ContainerStatuses, ∀ w,
      c.State.Waiting = some w →
      (w.Reason = "CreateContainerError" ∨ w.Reason = "InvalidImageName" ∨
       w.Reason = "ImageInspectError" ∨ w.Reason = "ErrImageNeverPull") →
      ({ Namespace := p.Namespace, PodName := p.Name, ErrorType := w.Reason,
         ErrorMessage := w.Message, ContainerName := c.Name,
         RestartCount := c.RestartCount } : PodError) ∈ getPodErrors pods) ∧
    (∀ s ∈ calculateNamespaceStats pods,
      s.TotalErrors = totalErrorsOfNamespace s.Name pods) := by
  constructor
  · intro p hp c hc w hw hr
    unfold getPodErrors
    refine List.mem_flatMap.mpr ⟨p, hp, List.mem_append_right _ ?_⟩
    refine List.mem_flatMap.mpr ⟨c, hc, ?_⟩
    unfold containerStatusErrors
    refine List.mem_append_right _ ?_
    rw [hw]
    have hstate : isErrorState w.Reason = true := by
      rcases hr with h | h | h | h <;> rw [h] <;> rfl
    simp [hstate]
  · intro s hs
    rcases mem_calculateNamespaceStats pods s hs with ⟨ns, _, heq, _⟩
    subst heq
    simp [finalizeAcc, aggFold_TotalErrors, aggFold_Name]

/-- C3 witness: the record emitted for `podCreateErr`'s container, and the
aggregated total of `pod2`'s namespace. -/
theorem C3_other_reasons_uncounted_witness :
    ({ Namespace := "d", PodName := "pd", ErrorType := "CreateContainerError",
       ErrorMessage := "boom", ContainerName := "cd",
       RestartCount := 0 } : PodError) ∈ getPodErrors [podCreateErr] ∧
    statB8.TotalErrors = totalErrorsOfNamespace "b" [pod2] :=
  ⟨(C3_other_reasons_uncounted [podCreateErr]).1 podCreateErr (by decide)
      contCreateErr (by decide) waitCreateErr rfl (Or.inl rfl),
   (C3_other_reasons_uncounted [pod2]).2 statB8
     (by rw [eval_stats_pod2]; exact List.mem_singleton.mpr rfl)⟩

/-- C4: the restart threshold is hard-coded.  The shipped configuration
sets `high_restart_threshold: 1` and `LoadConfig` keeps that value, yet a
container with 3 restarts (3 > 1) produces no `HighRestartCount` record
and no stats entry, because both `getPodErrors` and
`calculateNamespaceStats` compare against the literal 5 and never read
the configured threshold. -/
theorem C4_threshold_ignored :
    loadHighRestartThreshold 1 = 1 ∧ ((1 : Int) < 3) ∧
    getPodErrors [podRC3] = [] ∧
    calculateNamespaceStats [podRC3] = [] :=
  ⟨by decide, by decide, by decide, eval_stats_podRC3⟩

/-- C5: when client construction fails after the kubeconfig write, the
in-memory active profile is unchanged but the persisted current context
has already been switched to the target and is not rolled back — an
observable partial mutation. -/
theorem C5_counterexample :
    switchContext st0 "b" true false =
      ({ activeContext := "a"
         persisted := { CurrentContext := "b", Contexts := ["a", "b"] } },
       some SwitchError.ClientConstructionFailure) ∧
    (switchContext st0 "b" true false).1.persisted.CurrentContext ≠
      st0.persisted.CurrentContext := by
  decide

/-- C5 (amended): for every valid target, if persistence succeeds and
client construction then fails, `switchContext` surfaces
`ClientConstructionFailure` and leaves the in-memory active profile
unchanged, but the persisted current context remains switched to the
target (no rollback). -/
theorem C5_construction_failure_no_rollback (st : ServerState) (target : String)
    (h : target ∈ st.persisted.Contexts) :
    (switchContext st target true false).2 =
        some SwitchError.ClientConstructionFailure ∧
    (switchContext st target true false).1.activeContext = st.activeContext ∧
    (switchContext st target true false).1.persisted.CurrentContext = target ∧
    (switchContext st target true false).1.persisted.Contexts =
      st.persisted.Contexts := by
  unfold switchContext
  rw [if_pos h]
  simp

/-- C5 witness: the amended statement evaluated on `st0` and target `b`. -/
theorem C5_construction_failure_no_rollback_witness :
    ("b" ∈ st0.persisted.Contexts) ∧
    (switchContext st0 "b" true false).1.activeContext = st0.activeContext ∧
    (switchContext st0 "b" true false).1.persisted.CurrentContext = "b" :=
  ⟨by decide,
   (C5_construction_failure_no_rollback st0 "b" (by decide)).2.1,
   (C5_construction_failure_no_rollback st0 "b" (by decide)).2.2.1⟩

/-- C6: switching to a name absent from the kubeconfig contexts returns
the context-not-found error and leaves the whole server and persisted
state untouched, whatever the persistence and client-construction
outcomes would have been. -/
theorem C6_absent_context_rejected (st : ServerState) (target : String)
    (persistOk clientOk : Bool) (h : target ∉ st.persisted.Contexts) :
    switchContext st target persistOk clientOk =
      (st, some SwitchError.ContextNotFound) := by
  unfold switchContext
  rw [if_neg h]

/-- C6 witness: switching `st0` to the absent name `z`. -/
theorem C6_absent_context_rejected_witness :
    ("z" ∉ st0.persisted.Contexts) ∧
    switchContext st0 "z" true true = (st0, some SwitchError.ContextNotFound) :=
  ⟨by decide, C6_absent_context_rejected st0 "z" true true (by decide)⟩

/-- C7: every entry of the ranked result has a positive error total —
namespaces without error records are absent, not zero-valued — for every
snapshot and every map-iteration order. -/
theorem C7_ranked_entries_have_errors (pods : List Pod) (order : List String)
    (s : NamespaceStats) :
    (s ∈ calculateNamespaceStats pods → 0 < s.TotalErrors) ∧
    (s ∈ calculateNamespaceStatsOrdered order pods → 0 < s.TotalErrors) :=
  ⟨fun hs => mem_finalize_pos _ s hs, fun hs => mem_finalize_pos _ s hs⟩

/-- C7 witness: the entry for `b` in the ranked result of `[pod2]`. -/
theorem C7_ranked_entries_have_errors_witness :
    statB8 ∈ calculateNamespaceStats [pod2] ∧ 0 < statB8.TotalErrors :=
  ⟨by rw [eval_stats_pod2]; exact List.mem_singleton.mpr rfl,
   (C7_ranked_entries_have_errors [pod2] [] statB8).1
     (by rw [eval_stats_pod2]; exact List.mem_singleton.mpr rfl)⟩

/-- C8: scenario `p2` in namespace `b`, container restart count 10 with
waiting reason `CrashLoopBackOff`: the classifier yields exactly the
high-restart record and the crash-loop record, and the stats for `b` are
totalErrors 2, crashLoop 1, highRestarts 1, totalRestarts 10, score 6. -/
theorem C8_scenario :
    getPodErrors [pod2] =
      [{ Namespace := "b", PodName := "p2", ErrorType := "HighRestartCount",
         ErrorMessage := "Container has restarted multiple times",
         ContainerName := "c1", RestartCount := 10 },
       { Namespace := "b", PodName := "p2", ErrorType := "CrashLoopBackOff",
         ErrorMessage := "m", ContainerName := "c1", RestartCount := 10 }] ∧
    calculateNamespaceStats [pod2] = [statB8] ∧
    statB8.Score = 6 :=
  ⟨by decide, eval_stats_pod2, rfl⟩

/-- C9: with the hard-coded weights, the score is strictly increasing in
each of `CrashLoop`, `ImagePull`, `HighRestarts` and `TotalRestarts`
separately, all other fields (including `TotalErrors`) held fixed. -/
theorem C9_score_monotone (s : NamespaceStats) (d : Int) (hd : 0 < d) :
    scoreOf s < scoreOf { s with CrashLoop := s.CrashLoop + d } ∧
    scoreOf s < scoreOf { s with ImagePull := s.ImagePull + d } ∧
    scoreOf s < scoreOf { s with HighRestarts := s.HighRestarts + d } ∧
    scoreOf s < scoreOf { s with TotalRestarts := s.TotalRestarts + d } := by
  have hdq : (0 : ℚ) < (d : ℚ) := by exact_mod_cast hd
  unfold scoreOf
  refine ⟨?_, ?_, ?_, ?_⟩ <;> simp <;> linarith

/-- C9 witness: one unit added to each counter of `statB8` raises the
score. -/
theorem C9_score_monotone_witness :
    (0 : Int) < 1 ∧
    scoreOf statB8 < scoreOf { statB8 with CrashLoop := statB8.CrashLoop + 1 } :=
  ⟨by decide, (C9_score_monotone statB8 1 (by decide)).1⟩

/-- C10: in every ranked entry the breakdown counts never exceed the error
total (the derived other-error count is nonnegative) and at least one
distinct pod was recorded. -/
theorem C10_breakdown_bounds (pods : List Pod) (s : NamespaceStats)
    (hs : s ∈ calculateNamespaceStats pods) :
    s.CrashLoop + s.ImagePull + s.HighRestarts ≤ s.TotalErrors ∧
    1 ≤ s.UniquePods := by
  rcases mem_calculateNamespaceStats pods s hs with ⟨ns, _, heq, hpos⟩
  subst heq
  refine ⟨?_, ?_⟩
  · simp only [finalizeAcc]
    rw [aggFold_CrashLoop, aggFold_ImagePull, aggFold_HighRestarts,
      aggFold_TotalErrors]
    exact counts_le_totalErrors ns pods
  · have hTE : 0 < (aggFold ns pods).stats.TotalErrors := by
      simpa [finalizeAcc] using hpos
    have hnn := podSeen_aggFold ns pods hTE
    have hlen : 0 < (aggFold ns pods).podNames.length := List.length_pos.mpr hnn
    simp only [finalizeAcc]
    exact_mod_cast hlen

/-- C10 witness: the entry for `b` in the ranked result of `[pod2]`. -/
theorem C10_breakdown_bounds_witness :
    statB8 ∈ calculateNamespaceStats [pod2] ∧
    statB8.CrashLoop + statB8.ImagePull + statB8.HighRestarts ≤
      statB8.TotalErrors ∧
    1 ≤ statB8.UniquePods :=
  ⟨by rw [eval_stats_pod2]; exact List.mem_singleton.mpr rfl,
   C10_breakdown_bounds [pod2] statB8
     (by rw [eval_stats_pod2]; exact List.mem_singleton.mpr rfl)⟩
